import Mathlib

/-!
# pfsd: peer broadcast, RPC receivers and daemon startup

A shallow embedding of the four source files of the daemon:

* `pnetclient/creat.go`  : `creat`, `sendCreateMessage`
* `pnetserver/mkdir.go`  : `ParanoidServer.Mkdir`
* `pnetserver/symlink.go`: `ParanoidServer.Symlink`
* `main.go`              : `main`, `startRPCServer`, `createPid`

Effects (network calls, process exit, file writes) are made explicit: every
function returns the sequence of events it performed together with the way it
ended.  Everything outside the four files (peers, the command library, the
certificate reader, UPnP, the file system) is an argument of the model.
-/

namespace Pfsd

/-! ## Go library functions used by the sources -/

/-- The error kinds of `strconv.NumError`. -/
inductive NumErr where
  | malformed
  | outOfRange
deriving DecidableEq, Repr

/-- The digit value `strconv.ParseUint` gives a byte: `0-9`, then letters
from 10 upwards, `none` for every other byte. -/
def digitVal (c : Char) : Option Nat :=
  if '0'.toNat ≤ c.toNat ∧ c.toNat ≤ '9'.toNat then some (c.toNat - '0'.toNat)
  else if 'a'.toNat ≤ c.toNat ∧ c.toNat ≤ 'z'.toNat then some (c.toNat - 'a'.toNat + 10)
  else if 'A'.toNat ≤ c.toNat ∧ c.toNat ≤ 'Z'.toNat then some (c.toNat - 'A'.toNat + 10)
  else none

/-- The value `(1<<64 - 1)/base + 1` of `strconv`: the smallest `n` with
`n * base` overflowing 64 bits. -/
def cutoff64 (base : Nat) : Nat := (2 ^ 64 - 1) / base + 1

/-- The digit loop of `strconv.ParseUint`, on `uint64` arithmetic. A byte
that is no digit of the base gives `(0, ErrSyntax)`; an overflow of `maxVal`
gives `(maxVal, ErrRange)` at once, before the bytes after it are looked at. -/
def parseUintLoop (base maxVal : Nat) : Nat → List Char → Nat × Option NumErr
  | n, [] => (n, none)
  | n, c :: cs =>
    match digitVal c with
    | none => (0, some NumErr.malformed)
    | some d =>
      if base ≤ d then (0, some NumErr.malformed)
      else if cutoff64 base ≤ n then (maxVal, some NumErr.outOfRange)
      else
        let n10 := (n * base) % 2 ^ 64
        let n1 := (n10 + d) % 2 ^ 64
        if n1 < n10 ∨ maxVal < n1 then (maxVal, some NumErr.outOfRange)
        else parseUintLoop base maxVal n1 cs

/-- Go `strconv.ParseUint(s, base, bitSize)` for `2 ≤ base ≤ 36` and
`bitSize > 0`: value and error. -/
def parseUint (s : String) (base bitSize : Nat) : Nat × Option NumErr :=
  if s.data = [] then (0, some NumErr.malformed)
  else parseUintLoop base (2 ^ bitSize - 1) 0 s.data

/-- Go `strconv.ParseInt(s, base, bitSize)` for `bitSize > 0`. -/
def parseInt (s : String) (base bitSize : Nat) : Int × Option NumErr :=
  match s.data with
  | [] => (0, some NumErr.malformed)
  | c :: cs =>
    let neg := c = '-'
    let body := if c = '+' ∨ c = '-' then cs else c :: cs
    let r := parseUint (String.mk body) base bitSize
    if r.2 = some NumErr.malformed then (0, some NumErr.malformed)
    else
      let cutoff : Nat := 2 ^ (bitSize - 1)
      if ¬ neg ∧ cutoff ≤ r.1 then ((cutoff : Int) - 1, some NumErr.outOfRange)
      else if neg ∧ cutoff < r.1 then (-(cutoff : Int), some NumErr.outOfRange)
      else (if neg then -(r.1 : Int) else (r.1 : Int), none)

/-- Go `strconv.Atoi`, which is `ParseInt(s, 10, 0)` with `int` of 64 bits. -/
def atoi (s : String) : Int × Option NumErr := parseInt s 10 64

/-- Go `path.Clean` on the components of a path: empty components and `.`
are dropped, `..` removes the component before it (at the root it is
dropped, at the start of a relative path it is kept). `out` is reversed. -/
def cleanComponents (rooted : Bool) : List String → List String → List String
  | out, [] => out.reverse
  | out, c :: cs =>
    if c = "" ∨ c = "." then cleanComponents rooted out cs
    else if c = ".." then
      match out with
      | [] => if rooted then cleanComponents rooted [] cs
              else cleanComponents rooted [".."] cs
      | o :: os =>
        if o = ".." then cleanComponents rooted (".." :: o :: os) cs
        else cleanComponents rooted os cs
    else cleanComponents rooted (c :: out) cs

/-- Splits a byte sequence at every `/`. -/
def splitSlash : List Char → List Char → List String
  | cur, [] => [String.mk cur.reverse]
  | cur, c :: cs =>
    if c = '/' then String.mk cur.reverse :: splitSlash [] cs
    else splitSlash (c :: cur) cs

/-- Go `path.Clean`. -/
def pathClean (p : String) : String :=
  if p = "" then "."
  else
    let rooted := p.data.head? = some '/'
    let body := "/".intercalate (cleanComponents rooted [] (splitSlash [] p.data))
    if rooted then "/" ++ body
    else if body = "" then "." else body

/-- Go `path.Join`: the elements from the first non-empty one on, joined by
`/` and cleaned; the empty string when every element is empty. -/
def pathJoin : List String → String
  | [] => ""
  | e :: es => if e = "" then pathJoin es else pathClean ("/".intercalate (e :: es))

/-- Go `fmt.Sprint` of an unsigned integer. -/
def sprintNat (n : Nat) : String := toString n

/-- Go `strconv.Itoa`. -/
def itoa (n : Int) : String := toString n

/-! ## pnetclient/creat.go -/

/-- The peer record `globals.Node`. -/
structure Node where
  IP : String
  Port : String
deriving DecidableEq, Repr

/-- The message `pb.CreatRequest`: file name and `uint32` permissions. -/
structure CreatRequest where
  filename : String
  permissions : Nat
deriving DecidableEq, Repr

/-- What one peer does in a broadcast: whether `grpc.Dial` to it succeeds
and whether its remote `Creat` call returns without error. -/
structure PeerOutcome where
  dialOk : Bool
  creatOk : Bool
deriving DecidableEq, Repr

/-- The network events of the client, in the order they happen. -/
inductive NetEvent where
  | dial (target : String) (ok : Bool)
  | creatCall (target : String) (req : CreatRequest) (ok : Bool)
  | connClose (target : String)
deriving DecidableEq, Repr

/-- How a call ends: it returns to its caller, or the process exits
(`log.Fatalln` calls `os.Exit(1)`). -/
inductive Ending where
  | returned
  | exited (code : Nat)
deriving DecidableEq, Repr

/-- The observable result of a client call. -/
structure Run where
  events : List NetEvent
  ending : Ending
deriving DecidableEq, Repr

/-- The target `ipAddress.IP + ":" + ipAddress.Port` of the dial. -/
def Node.target (n : Node) : String := n.IP ++ ":" ++ n.Port

/-- The `uint32` that `sendCreateMessage` computes from the permissions
string: `ParseUint(permissions, 10, 32)` with the error dropped, converted
to `uint32`. (Go releases before 1.10 return `2^64 - 1` instead of `maxVal`
on a range error; the conversion to `uint32` gives `2^32 - 1` for both.) -/
def permissionsInt (permissions : String) : Nat :=
  (parseUint permissions 10 32).1 % 2 ^ 32

/-- The function `sendCreateMessage` (creat.go, lines 21-39). A failed dial
ends the process through `log.Fatalln` before the remote call; a failed
remote call is logged and the function returns, closing the connection. -/
def sendCreateMessage (o : PeerOutcome) (ipAddress : Node) (filename permissions : String) :
    Run :=
  let perm := permissionsInt permissions
  if o.dialOk then
    { events := [NetEvent.dial ipAddress.target true,
                 NetEvent.creatCall ipAddress.target ⟨filename, perm⟩ o.creatOk,
                 NetEvent.connClose ipAddress.target],
      ending := Ending.returned }
  else
    { events := [NetEvent.dial ipAddress.target false], ending := Ending.exited 1 }

/-- The loop of `creat` from peer number `i` on; `outcome j` is what peer
number `j` of the list does. -/
def creatFrom (outcome : Nat → PeerOutcome) (filename permissions : String) :
    Nat → List Node → Run
  | _, [] => { events := [], ending := Ending.returned }
  | i, ipAddr :: rest =>
    let r := sendCreateMessage (outcome i) ipAddr filename permissions
    match r.ending with
    | Ending.exited c => { events := r.events, ending := Ending.exited c }
    | Ending.returned =>
      let r2 := creatFrom outcome filename permissions (i + 1) rest
      { events := r.events ++ r2.events, ending := r2.ending }

/-- The function `creat` (creat.go, lines 12-19). -/
def creat (outcome : Nat → PeerOutcome) (ips : List Node) (filename permissions : String) :
    Run :=
  creatFrom outcome filename permissions 0 ips

/-- The targets dialled, in order. -/
def dialTargets : List NetEvent → List String
  | [] => []
  | NetEvent.dial t _ :: es => t :: dialTargets es
  | _ :: es => dialTargets es

/-- The targets of the remote `Creat` calls, in order. -/
def creatTargets : List NetEvent → List String
  | [] => []
  | NetEvent.creatCall t _ _ :: es => t :: creatTargets es
  | _ :: es => creatTargets es

/-! ## pnetserver/mkdir.go and pnetserver/symlink.go -/

/-- The gRPC status codes (`google.golang.org/grpc/codes`). -/
inductive GrpcCode where
  | OK | Canceled | Unknown | InvalidArgument | DeadlineExceeded | NotFound
  | AlreadyExists | PermissionDenied | ResourceExhausted | FailedPrecondition
  | Aborted | OutOfRange | Unimplemented | Internal | Unavailable | DataLoss
  | Unauthenticated
deriving DecidableEq, Repr

/-- A non-nil Go `error` value: the name of its dynamic type and the text
its `Error()` method returns. A Go `error` is an `Option GoError`, `none`
being `nil`. -/
structure GoError where
  typeName : String
  text : String
deriving DecidableEq, Repr

/-- The error value `grpc.Errorf` builds. -/
structure RpcError where
  code : GrpcCode
  desc : String
deriving DecidableEq, Repr

/-- Go `grpc.Errorf(c, format, a...)` with the message already formatted:
`nil` for `codes.OK`, an error of class `c` otherwise. -/
def grpcErrorf (c : GrpcCode) (desc : String) : Option RpcError :=
  if c = GrpcCode.OK then none else some { code := c, desc := desc }

/-- What the verb `%v` prints for an `error` argument. -/
def fmtErrV : Option GoError → String
  | none => "<nil>"
  | some e => e.text

/-- What `fmt` appends for an argument the format has no verb for. -/
def fmtExtra : Option GoError → String
  | none => "%!(EXTRA <nil>)"
  | some e => "%!(EXTRA " ++ e.typeName ++ "=" ++ e.text ++ ")"

/-- The message `pb.EmptyMessage`. -/
structure EmptyMessage where
deriving DecidableEq, Repr

/-- The message `pb.MkdirRequest`. -/
structure MkdirRequest where
  directory : String
  mode : Nat
deriving DecidableEq, Repr

/-- The message `pb.LinkRequest`. -/
structure LinkRequest where
  OldPath : String
  NewPath : String
deriving DecidableEq, Repr

/-- A receiver's reply: the response pointer (`none` is `nil`) and the error. -/
structure Reply where
  response : Option EmptyMessage
  err : Option RpcError
deriving DecidableEq, Repr

/-- The receiver `ParanoidServer.Mkdir` (mkdir.go, lines 12-24).
`runCommand` gets the arguments after the `nil` input and returns
`(code, output, err)`; `convertCodeToError` is the package's translation of
a result code for a path. Neither is defined in the four files. -/
def Mkdir (runCommand : List String → Int × String × Option GoError)
    (convertCodeToError : Int → String → Option RpcError)
    (ParanoidDir : String) (req : MkdirRequest) : Reply :=
  let r := runCommand ["mkdir", ParanoidDir, req.directory, sprintNat req.mode]
  match r.2.2 with
  | some e =>
    { response := some {},
      err := grpcErrorf GrpcCode.Internal
        ("Could not make directory: " ++ req.directory ++ " with mode: " ++
          sprintNat req.mode ++ "\n" ++ fmtExtra (some e)) }
  | none => { response := some {}, err := convertCodeToError r.1 req.directory }

/-- The receiver `ParanoidServer.Symlink` (symlink.go, lines 13-23).
`returncodesOK` is the constant `returncodes.OK` and `SymlinkCommand` the
function `commands.SymlinkCommand`, both of the command library. -/
def Symlink (returncodesOK : Int)
    (SymlinkCommand : String → String → String → Bool → Int × Option GoError)
    (ParanoidDir : String) (req : LinkRequest) : Reply :=
  let r := SymlinkCommand ParanoidDir req.OldPath req.NewPath false
  if r.1 ≠ returncodesOK then
    { response := some {},
      err := grpcErrorf GrpcCode.Internal
        ("could not link file " ++ req.OldPath ++ " to " ++ req.NewPath ++ ": " ++
          fmtErrV r.2) }
  else { response := some {}, err := none }

/-- The string `sub` occurs in the string `s`. -/
def Contains (s sub : String) : Prop := sub.data <:+: s.data

instance (s sub : String) : Decidable (Contains s sub) := by
  unfold Contains; infer_instance

/-! ## main.go -/

/-- The command-line flags of `main.go` (lines 28-33). -/
structure Flags where
  certFile : String
  keyFile : String
  noNetwork : Bool
  skipVerify : Bool
  verbose : Bool
deriving DecidableEq, Repr

/-- The variables of package `globals` that `main` assigns. -/
structure Globals where
  TLSSkipVerify : Bool
  TLSEnabled : Bool
  CommonName : String
  Port : Int
  UPnPEnabled : Bool
  Server : String
deriving DecidableEq, Repr

/-- Everything `main` calls that is not defined in `main.go`:
`getCommonNameFromCert` (package main), `upnp.GetIP` (first and second
call), `net.Listen` (the listener's address on success), the two UPnP
calls, `os.Stat` followed by `os.IsNotExist`, `credentials.NewServerTLSFromFile`,
`ioutil.WriteFile` and `os.Getpid`. -/
structure World where
  getCommonNameFromCert : String → Except GoError String
  upnpGetIP : Nat → Except GoError String
  netListen : String → Except GoError String
  upnpDiscoverDevices : Option GoError
  upnpAddPortMapping : Int → Except GoError Int
  statIsNotExist : String → Bool
  newServerTLSFromFile : String → String → Option GoError
  writeFile : String → String → Option GoError
  getpid : Int

/-- The outside effects of `main`, in the order they happen. -/
inductive MainEvent where
  | printUsage
  | newLogger (component logDir : String)
  | readCommonName (certFile : String)
  | upnpGetIP
  | listen (address : String)
  | upnpDiscover
  | upnpAddPortMapping (port : Int)
  | stat (path : String)
  | setDiscovery (host port ownPort : String)
  | joinDiscovery (pool : String)
  | loadTLSCredentials (certFile keyFile : String)
  | serve (tls : Bool)
  | writeFile (path content : String)
  | startPfi (directory mountPoint : String) (verbose network : Bool)
  | handleSignals
deriving DecidableEq, Repr

/-- The places where `main` ends the process through a fatal log. -/
inductive FatalSite where
  | commonName
  | discoveryPort
  | getIP
  | listen
  | parsePort
  | serverIP
  | rootMissing
  | rootInvalid
  | tlsCredentials
  | pidFile
deriving DecidableEq, Repr

/-- How startup ends: `os.Exit(1)` after the usage text, a fatal log, or the
daemon running (it reached `HandleSignals`). -/
inductive Outcome where
  | usageExit
  | fatal (site : FatalSite)
  | running
deriving DecidableEq, Repr

/-- The state `main` works on: package `globals`, the variable
`pnetserver.ParanoidDir`, and the events so far. -/
structure State where
  globals : Globals
  ParanoidDir : String
  trace : List MainEvent
deriving DecidableEq, Repr

/-- A stage of `main` either goes on with a state or ends the process. -/
inductive Step where
  | next (s : State)
  | stop (s : State) (o : Outcome)
deriving DecidableEq, Repr

/-- The state a stage ends in. -/
def Step.state : Step → State
  | Step.next s => s
  | Step.stop s _ => s

/-- The outcome of a stage that ended the process. -/
def Step.outcome? : Step → Option Outcome
  | Step.next _ => none
  | Step.stop _ o => some o

/-- Runs the stage `f` after `x` unless `x` ended the process. -/
def Step.andThen (x : Step) (f : State → Step) : Step :=
  match x with
  | Step.next s => f s
  | Step.stop s o => Step.stop s o

/-- Appends an event to the trace. -/
def State.emit (s : State) (e : MainEvent) : State :=
  { s with trace := s.trace ++ [e] }

/-- Go `flag.Arg(i)`: the empty string when there is no such argument. -/
def flagArg (args : List String) (i : Nat) : String := args.getD i ""

/-- The last element of `strings.Split(s, ":")`: what follows the last colon. -/
def lastAfterColon (s : String) : String :=
  String.mk ((s.data.reverse.takeWhile (fun c => c ≠ ':')).reverse)

/-- Lines 61-71 of `main`: the five loggers, all under `<arg 0>/meta/logs`. -/
def setupLoggers (args : List String) (s : State) : Step :=
  let dir := pathJoin [flagArg args 0, "meta", "logs"]
  Step.next { s with trace := s.trace ++
    [MainEvent.newLogger "main" dir, MainEvent.newLogger "dnetclient" dir,
     MainEvent.newLogger "pnetclient" dir, MainEvent.newLogger "pnetserver" dir,
     MainEvent.newLogger "upnp" dir] }

/-- Lines 73-85 of `main`: the security set-up. -/
def securitySetup (fl : Flags) (w : World) (s : State) : Step :=
  let s1 := { s with globals := { s.globals with TLSSkipVerify := fl.skipVerify } }
  if fl.certFile ≠ "" ∧ fl.keyFile ≠ "" then
    let s2 := { s1 with globals := { s1.globals with TLSEnabled := true } }
    if ¬ s2.globals.TLSSkipVerify then
      let s3 := s2.emit (MainEvent.readCommonName fl.certFile)
      match w.getCommonNameFromCert fl.certFile with
      | Except.error _ => Step.stop s3 (Outcome.fatal FatalSite.commonName)
      | Except.ok cn => Step.next { s3 with globals := { s3.globals with CommonName := cn } }
    else Step.next s2
  else Step.next { s1 with globals := { s1.globals with TLSEnabled := false } }

/-- The test of line 89 on the result of `strconv.Atoi(flag.Arg(3))`. -/
def discoveryPortRejected (arg3 : String) : Bool :=
  let r := atoi arg3
  decide (r.2 ≠ none ∨ r.1 < 1 ∨ r.1 > 65535)

/-- Lines 87-92 of `main`: the discovery-port check. -/
def discoveryPortCheck (fl : Flags) (args : List String) (s : State) : Step :=
  if ¬ fl.noNetwork then
    if discoveryPortRejected (flagArg args 3) then
      Step.stop s (Outcome.fatal FatalSite.discoveryPort)
    else Step.next s
  else Step.next s

/-- The function `startRPCServer` (main.go, lines 36-52). -/
def startRPCServer (fl : Flags) (w : World) (s : State) : Step :=
  if s.globals.TLSEnabled then
    let s1 := s.emit (MainEvent.loadTLSCredentials fl.certFile fl.keyFile)
    match w.newServerTLSFromFile fl.certFile fl.keyFile with
    | some _ => Step.stop s1 (Outcome.fatal FatalSite.tlsCredentials)
    | none => Step.next (s1.emit (MainEvent.serve true))
  else Step.next (s.emit (MainEvent.serve false))

/-- Lines 113-125 of `main`: the UPnP port mapping; gives the state and the
local variable `port`. -/
def upnpSetup (w : World) (port : Int) (s : State) : State × Int :=
  let s1 := { s with globals := { s.globals with UPnPEnabled := false } }
  let s2 := s1.emit MainEvent.upnpDiscover
  match w.upnpDiscoverDevices with
  | some _ => (s2, port)
  | none =>
    let s3 := s2.emit (MainEvent.upnpAddPortMapping port)
    match w.upnpAddPortMapping port with
    | Except.error _ => (s3, port)
    | Except.ok externalPort =>
      ({ s3 with globals := { s3.globals with Port := externalPort, UPnPEnabled := true } },
        externalPort)

/-- Lines 127-142 of `main`: the peer address, the two checks of the root
directory, discovery and the RPC server. -/
def joinNetwork (fl : Flags) (w : World) (args : List String) (port : Int) (s : State) :
    Step :=
  let s1 := s.emit MainEvent.upnpGetIP
  match w.upnpGetIP 1 with
  | Except.error _ => Step.stop s1 (Outcome.fatal FatalSite.serverIP)
  | Except.ok server =>
    let s2 := { s1 with globals := { s1.globals with Server := server } }
    let s3 := s2.emit (MainEvent.stat s2.ParanoidDir)
    if w.statIsNotExist s2.ParanoidDir then Step.stop s3 (Outcome.fatal FatalSite.rootMissing)
    else
      let metaDir := pathJoin [s3.ParanoidDir, "meta"]
      let s4 := s3.emit (MainEvent.stat metaDir)
      if w.statIsNotExist metaDir then Step.stop s4 (Outcome.fatal FatalSite.rootInvalid)
      else
        let s5 := s4.emit (MainEvent.setDiscovery (flagArg args 2) (flagArg args 3) (itoa port))
        let s6 := s5.emit (MainEvent.joinDiscovery "_")
        startRPCServer fl w s6

/-- Lines 94-143 of `main`: the networking block. -/
def networkSetup (fl : Flags) (w : World) (args : List String) (s : State) : Step :=
  if ¬ fl.noNetwork then
    let s1 := { s with ParanoidDir := flagArg args 0 }
    let s2 := s1.emit MainEvent.upnpGetIP
    match w.upnpGetIP 0 with
    | Except.error _ => Step.stop s2 (Outcome.fatal FatalSite.getIP)
    | Except.ok ip =>
      let s3 := s2.emit (MainEvent.listen (ip ++ ":0"))
      match w.netListen (ip ++ ":0") with
      | Except.error _ => Step.stop s3 (Outcome.fatal FatalSite.listen)
      | Except.ok addr =>
        let r := atoi (lastAfterColon addr)
        if r.2 ≠ none then Step.stop s3 (Outcome.fatal FatalSite.parsePort)
        else
          let s4 := { s3 with globals := { s3.globals with Port := r.1 } }
          let u := upnpSetup w r.1 s4
          joinNetwork fl w args u.2 u.1
  else Step.next s

/-- The function `createPid` (main.go, lines 150-157). -/
def createPid (w : World) (processName : String) (s : State) : Step :=
  let file := pathJoin [s.ParanoidDir, "meta", processName ++ ".pid"]
  let s1 := s.emit (MainEvent.writeFile file (itoa w.getpid))
  match w.writeFile file (itoa w.getpid) with
  | some _ => Step.stop s1 (Outcome.fatal FatalSite.pidFile)
  | none => Step.next s1

/-- Lines 145-147 of `main`: the file-system interface and the signal loop. -/
def runDaemon (fl : Flags) (args : List String) (s : State) : Step :=
  let s1 := s.emit
    (MainEvent.startPfi (flagArg args 0) (flagArg args 1) fl.verbose (!fl.noNetwork))
  Step.stop (s1.emit MainEvent.handleSignals) Outcome.running

/-- Lines 55-92 of `main`: everything up to and including the
discovery-port check. -/
def mainToPortCheck (fl : Flags) (w : World) (args : List String) (s : State) : Step :=
  if args.length < 4 then Step.stop (s.emit MainEvent.printUsage) Outcome.usageExit
  else
    ((setupLoggers args s).andThen (securitySetup fl w)).andThen (discoveryPortCheck fl args)

/-- The function `main` (main.go, lines 54-148), started in state `s`. -/
def main (fl : Flags) (w : World) (args : List String) (s : State) : Step :=
  (((mainToPortCheck fl w args s).andThen (networkSetup fl w args)).andThen
    (createPid w "pfsd")).andThen (runDaemon fl args)

/-- The certificate files read in a trace: by the common-name extraction
or by the loading of the TLS credentials. -/
def certReads : List MainEvent → List String
  | [] => []
  | MainEvent.readCommonName c :: es => c :: certReads es
  | MainEvent.loadTLSCredentials c _ :: es => c :: certReads es
  | _ :: es => certReads es

/-- The event contacts the network: UPnP, a listener, discovery or the RPC
server. -/
def MainEvent.isNetwork : MainEvent → Bool
  | MainEvent.upnpGetIP => true
  | MainEvent.listen _ => true
  | MainEvent.upnpDiscover => true
  | MainEvent.upnpAddPortMapping _ => true
  | MainEvent.setDiscovery _ _ _ => true
  | MainEvent.joinDiscovery _ => true
  | MainEvent.serve _ => true
  | _ => false

/-- The paths of the files written in a trace. -/
def writtenFiles : List MainEvent → List String
  | [] => []
  | MainEvent.writeFile p _ :: es => p :: writtenFiles es
  | _ :: es => writtenFiles es

/-! ## Decimal numerals, as the claims word them -/

/-- The byte is one of `0` to `9`. -/
def isDecDigit (c : Char) : Bool := decide ('0'.toNat ≤ c.toNat ∧ c.toNat ≤ '9'.toNat)

/-- The value of a sequence of decimal digits read after the value `n`. -/
def decValueFrom (n : Nat) (cs : List Char) : Nat :=
  cs.foldl (fun a c => 10 * a + (c.toNat - '0'.toNat)) n

/-- The value of a sequence of decimal digits. -/
def decValue (cs : List Char) : Nat := decValueFrom 0 cs

/-- The longest prefix of decimal digits. -/
def digitPrefix (cs : List Char) : List Char := cs.takeWhile isDecDigit

/-- A decimal numeral: one or more decimal digits and nothing else. -/
def isDecimalNumeral (s : String) : Bool := decide (s.data ≠ []) && s.data.all isDecDigit

/-- The integer a string denotes in decimal notation, of any size: an
optional sign followed by a decimal numeral. -/
def decimalInteger (s : String) : Option Int :=
  match s.data with
  | [] => none
  | c :: cs =>
    let body := if c = '+' ∨ c = '-' then cs else c :: cs
    if isDecimalNumeral (String.mk body) then
      some (if c = '-' then -(decValue body : Int) else (decValue body : Int))
    else none

/-- The string parses as a decimal integer `p` with `1 ≤ p ≤ 65535`. -/
def isPortNumber (s : String) : Prop :=
  ∃ p : Int, decimalInteger s = some p ∧ 1 ≤ p ∧ p ≤ 65535

/-! ## Concrete inputs used by the examples -/

/-- A peer at `10.0.0.1:4000`. -/
def demoPeerA : Node := ⟨"10.0.0.1", "4000"⟩

/-- A peer at `10.0.0.2:4000`. -/
def demoPeerB : Node := ⟨"10.0.0.2", "4000"⟩

/-- A peer at `10.0.0.3:4000`. -/
def demoPeerC : Node := ⟨"10.0.0.3", "4000"⟩

/-- Peer 0 answers the remote call with an error, peer 1 succeeds, every
later peer cannot be dialled. -/
def demoOutcomes (i : Nat) : PeerOutcome := ⟨decide (i < 2), decide (i = 1)⟩

/-- A world in which the certificate has no readable common name and
everything else works: the host has address `10.0.0.5`, the listener gets
port 4242, there is no UPnP device. -/
def demoWorld : World where
  getCommonNameFromCert := fun _ => Except.error ⟨"*errors.errorString", "failed to parse certificate"⟩
  upnpGetIP := fun _ => Except.ok "10.0.0.5"
  netListen := fun _ => Except.ok "10.0.0.5:4242"
  upnpDiscoverDevices := some ⟨"*errors.errorString", "no devices found"⟩
  upnpAddPortMapping := fun p => Except.ok p
  statIsNotExist := fun _ => false
  newServerTLSFromFile := fun _ _ => none
  writeFile := fun _ _ => none
  getpid := 4711

/-- The state of a fresh process: the package variables have the zero
values of their types and nothing has happened. -/
def freshState : State :=
  { globals := { TLSSkipVerify := false, TLSEnabled := false, CommonName := "", Port := 0,
                 UPnPEnabled := false, Server := "" },
    ParanoidDir := "",
    trace := [] }

/-! ## Notions the statements use -/

/-- The network events of a trace. -/
def networkEvents (t : List MainEvent) : List MainEvent := t.filter MainEvent.isNetwork

/-- The common-name extraction of lines 76-80 takes place and fails. -/
def commonNameFails (fl : Flags) (w : World) : Prop :=
  fl.certFile ≠ "" ∧ fl.keyFile ≠ "" ∧ fl.skipVerify = false ∧
    ∃ e, w.getCommonNameFromCert fl.certFile = Except.error e

/-- The state after the loggers are set up. -/
def afterLoggers (args : List String) (s : State) : State :=
  (setupLoggers args s).state

/-! ## Lemmas on the broadcast loop -/

theorem sendCreateMessage_dialOk (o : PeerOutcome) (ip : Node) (f p : String)
    (h : o.dialOk = true) :
    sendCreateMessage o ip f p =
      { events := [NetEvent.dial ip.target true,
                   NetEvent.creatCall ip.target ⟨f, permissionsInt p⟩ o.creatOk,
                   NetEvent.connClose ip.target],
        ending := Ending.returned } := by
  simp [sendCreateMessage, h]

theorem sendCreateMessage_dialFails (o : PeerOutcome) (ip : Node) (f p : String)
    (h : o.dialOk = false) :
    sendCreateMessage o ip f p =
      { events := [NetEvent.dial ip.target false], ending := Ending.exited 1 } := by
  simp [sendCreateMessage, h]

theorem creatFrom_cons_ok (outcome : Nat → PeerOutcome) (f p : String) (i : Nat)
    (ip : Node) (rest : List Node) (h : (outcome i).dialOk = true) :
    creatFrom outcome f p i (ip :: rest) =
      { events := [NetEvent.dial ip.target true,
                   NetEvent.creatCall ip.target ⟨f, permissionsInt p⟩ (outcome i).creatOk,
                   NetEvent.connClose ip.target] ++ (creatFrom outcome f p (i + 1) rest).events,
        ending := (creatFrom outcome f p (i + 1) rest).ending } := by
  simp [creatFrom, sendCreateMessage_dialOk _ _ _ _ h]

theorem creatFrom_cons_fail (outcome : Nat → PeerOutcome) (f p : String) (i : Nat)
    (ip : Node) (rest : List Node) (h : (outcome i).dialOk = false) :
    creatFrom outcome f p i (ip :: rest) =
      { events := [NetEvent.dial ip.target false], ending := Ending.exited 1 } := by
  simp [creatFrom, sendCreateMessage_dialFails _ _ _ _ h]

/-- The loop from peer `i` on, when the first `k` peers of the rest can be
dialled and the one after them (if any) cannot. -/
theorem creatFrom_attempts (outcome : Nat → PeerOutcome) (f p : String) :
    ∀ (ips : List Node) (i k : Nat), k ≤ ips.length →
      (∀ j, j < k → (outcome (i + j)).dialOk = true) →
      (k < ips.length → (outcome (i + k)).dialOk = false) →
      dialTargets (creatFrom outcome f p i ips).events = (ips.take (k + 1)).map Node.target ∧
      creatTargets (creatFrom outcome f p i ips).events = (ips.take k).map Node.target ∧
      ((creatFrom outcome f p i ips).ending = Ending.returned ↔ k = ips.length) := by
  intro ips
  induction ips with
  | nil =>
    intro i k hk _ _
    have : k = 0 := by simpa using hk
    subst this
    simp [creatFrom, dialTargets, creatTargets]
  | cons ip rest ih =>
    intro i k hk hok hfail
    cases k with
    | zero =>
      have h0 : (outcome i).dialOk = false := by simpa using hfail (by simp)
      rw [creatFrom_cons_fail _ _ _ _ _ _ h0]
      simp [dialTargets, creatTargets]
    | succ k =>
      have h0 : (outcome i).dialOk = true := by simpa using hok 0 (by omega)
      rw [creatFrom_cons_ok _ _ _ _ _ _ h0]
      have hk2 : k ≤ rest.length := by simpa using hk
      have := ih (i + 1) k hk2
        (fun j hj => by have := hok (j + 1) (by omega); rwa [show i + 1 + j = i + (j + 1) by omega])
        (fun hlt => by
          have := hfail (by simpa using hlt)
          rwa [show i + 1 + k = i + (k + 1) by omega])
      obtain ⟨h1, h2, h3⟩ := this
      refine ⟨?_, ?_, ?_⟩
      · simp [dialTargets, h1]
      · simp [dialTargets, creatTargets, h2]
      · simp [h3]

/-! ## Lemmas on `strconv` -/

theorem digitVal_of_isDecDigit (c : Char) (h : isDecDigit c = true) :
    digitVal c = some (c.toNat - '0'.toNat) ∧ c.toNat - '0'.toNat < 10 := by
  simp only [isDecDigit, decide_eq_true_eq] at h
  refine ⟨by unfold digitVal; rw [if_pos h], ?_⟩
  have e0 : '0'.toNat = 48 := by decide
  have e9 : '9'.toNat = 57 := by decide
  omega

theorem digitVal_of_not_isDecDigit (c : Char) (h : isDecDigit c = false) :
    digitVal c = none ∨ ∃ d, digitVal c = some d ∧ 10 ≤ d := by
  simp only [isDecDigit, decide_eq_false_iff_not] at h
  unfold digitVal
  rw [if_neg h]
  split
  · exact Or.inr ⟨_, rfl, by omega⟩
  · split
    · exact Or.inr ⟨_, rfl, by omega⟩
    · exact Or.inl rfl

theorem parseUintLoop_not_digit (maxVal n : Nat) (c : Char) (cs : List Char)
    (h : isDecDigit c = false) :
    parseUintLoop 10 maxVal n (c :: cs) = (0, some NumErr.malformed) := by
  rcases digitVal_of_not_isDecDigit c h with h1 | ⟨d, h1, h2⟩
  · simp [parseUintLoop, h1]
  · simp [parseUintLoop, h1, h2]

theorem le_decValueFrom (cs : List Char) : ∀ n, n ≤ decValueFrom n cs := by
  induction cs with
  | nil => intro n; simp [decValueFrom]
  | cons c cs ih =>
    intro n
    have := ih (10 * n + (c.toNat - '0'.toNat))
    simp only [decValueFrom, List.foldl_cons] at this ⊢
    omega

theorem decValueFrom_cons (n : Nat) (c : Char) (cs : List Char) :
    decValueFrom n (c :: cs) = decValueFrom (10 * n + (c.toNat - '0'.toNat)) cs := by
  simp [decValueFrom]

/-- What the digit loop of `ParseUint` returns in base 10, from the value
`n ≤ maxVal` on. -/
theorem parseUintLoop_spec (maxVal : Nat) (hmax : maxVal < 2 ^ 64) :
    ∀ (cs : List Char) (n : Nat), n ≤ maxVal →
      parseUintLoop 10 maxVal n cs =
        if maxVal < decValueFrom n (digitPrefix cs) then (maxVal, some NumErr.outOfRange)
        else if digitPrefix cs ≠ cs then (0, some NumErr.malformed)
        else (decValueFrom n cs, none) := by
  intro cs
  induction cs with
  | nil =>
    intro n hn
    simp [parseUintLoop, digitPrefix, decValueFrom, Nat.not_lt.mpr hn]
  | cons c cs ih =>
    intro n hn
    cases hc : isDecDigit c with
    | false =>
      rw [parseUintLoop_not_digit _ _ _ _ hc]
      simp [digitPrefix, List.takeWhile, hc, decValueFrom, Nat.not_lt.mpr hn]
    | true =>
      obtain ⟨hd, hlt⟩ := digitVal_of_isDecDigit c hc
      have hpre : digitPrefix (c :: cs) = c :: digitPrefix cs := by
        simp [digitPrefix, List.takeWhile, hc]
      rw [hpre, decValueFrom_cons, decValueFrom_cons]
      have hmono := le_decValueFrom (digitPrefix cs) (10 * n + (c.toNat - '0'.toNat))
      have hcut : cutoff64 10 = 1844674407370955162 := by decide
      have h64 : (2 : Nat) ^ 64 = 18446744073709551616 := by norm_num
      rw [h64] at hmax
      unfold parseUintLoop
      simp only [hd]
      rw [if_neg (by omega)]
      by_cases h1 : cutoff64 10 ≤ n
      · rw [if_pos h1, if_pos (by omega)]
      · rw [if_neg h1]
        rw [hcut] at h1
        simp only [h64]
        by_cases h2 : (n * 10 % 18446744073709551616 + (c.toNat - '0'.toNat)) % 18446744073709551616
              < n * 10 % 18446744073709551616 ∨
            maxVal < (n * 10 % 18446744073709551616 + (c.toNat - '0'.toNat)) % 18446744073709551616
        · rw [if_pos h2, if_pos (by omega)]
        · rw [if_neg h2]
          have e : (n * 10 % 18446744073709551616 + (c.toNat - '0'.toNat)) % 18446744073709551616
              = 10 * n + (c.toNat - '0'.toNat) := by omega
          rw [e]
          rw [ih _ (by omega)]
          simp

theorem parseUint_spec (body : List Char) (bits : Nat) (hb : bits ≤ 64) :
    parseUint (String.mk body) 10 bits =
      if body = [] then (0, some NumErr.malformed)
      else if 2 ^ bits - 1 < decValue (digitPrefix body) then (2 ^ bits - 1, some NumErr.outOfRange)
      else if digitPrefix body ≠ body then (0, some NumErr.malformed)
      else (decValue body, none) := by
  unfold parseUint
  by_cases h : body = []
  · simp [h]
  · have hp : (2 : Nat) ^ bits ≤ 2 ^ 64 := Nat.pow_le_pow_right (by norm_num) hb
    have hpos : 0 < (2 : Nat) ^ bits := pow_pos (by norm_num) bits
    simp only [h, if_false]
    rw [parseUintLoop_spec (2 ^ bits - 1) (by omega) body 0 (by omega)]
    rfl

theorem digitPrefix_eq_self_iff (cs : List Char) :
    digitPrefix cs = cs ↔ cs.all isDecDigit = true := by
  induction cs with
  | nil => simp [digitPrefix]
  | cons c cs ih =>
    cases hc : isDecDigit c with
    | false => simp [digitPrefix, List.takeWhile, hc]
    | true =>
      simp only [digitPrefix] at ih
      simp [digitPrefix, List.takeWhile, hc, ih]

theorem isDecimalNumeral_mk (body : List Char) :
    isDecimalNumeral (String.mk body) = true ↔ body ≠ [] ∧ digitPrefix body = body := by
  simp [isDecimalNumeral, digitPrefix_eq_self_iff]

/-- The value `Atoi` gives for a sign-free body and a sign. -/
theorem atoi_cons (c : Char) (cs : List Char) :
    atoi (String.mk (c :: cs)) =
      (let neg := c = '-'
       let body := if c = '+' ∨ c = '-' then cs else c :: cs
       let r := parseUint (String.mk body) 10 64
       if r.2 = some NumErr.malformed then (0, some NumErr.malformed)
       else
         let cutoff : Nat := 2 ^ (64 - 1)
         if ¬ neg ∧ cutoff ≤ r.1 then ((cutoff : Int) - 1, some NumErr.outOfRange)
         else if neg ∧ cutoff < r.1 then (-(cutoff : Int), some NumErr.outOfRange)
         else (if neg then -(r.1 : Int) else (r.1 : Int), none)) := by
  rfl

/-- The check of line 89 lets exactly the port numbers through. -/
theorem discoveryPortRejected_eq_false_iff (s : String) :
    discoveryPortRejected s = false ↔ isPortNumber s := by
  obtain ⟨l⟩ := s
  cases l with
  | nil =>
    simp [discoveryPortRejected, atoi, parseInt, isPortNumber, decimalInteger]
  | cons c cs =>
    have h63 : (2 : Nat) ^ (64 - 1) = 9223372036854775808 := by norm_num
    have h64 : (2 : Nat) ^ 64 - 1 = 18446744073709551615 := by norm_num
    unfold discoveryPortRejected isPortNumber decimalInteger
    rw [atoi_cons]
    simp only []
    generalize hbody : (if c = '+' ∨ c = '-' then cs else c :: cs) = body
    rw [decide_eq_false_iff_not, parseUint_spec body 64 (le_refl _), h63, h64]
    by_cases hnum : isDecimalNumeral (String.mk body) = true
    · obtain ⟨hne, hpre⟩ := (isDecimalNumeral_mk body).mp hnum
      simp only [hnum, hne, hpre, if_true, if_false, ne_eq, not_true_eq_false]
      by_cases hneg : c = '-'
      · simp only [hneg, if_true]
        split_ifs <;> simp <;> first | contradiction | omega
      · simp only [hneg, if_false]
        split_ifs <;> simp <;> first | contradiction | omega
    · have hnum2 : isDecimalNumeral (String.mk body) = false := by simpa using hnum
      have hcase : body = [] ∨ digitPrefix body ≠ body := by
        by_contra hcon
        push_neg at hcon
        exact hnum ((isDecimalNumeral_mk body).mpr hcon)
      simp only [hnum2]
      rcases hcase with h | h
      · simp [h]
      · have hne : body ≠ [] := by
          rintro rfl
          exact h rfl
        simp only [hne, h, if_false, ne_eq, not_false_eq_true, if_true]
        by_cases hneg : c = '-'
        · simp only [hneg]
          split_ifs <;> simp <;> contradiction
        · simp only [hneg]
          split_ifs <;> simp <;> contradiction

/-! ## Lemmas on traces -/

@[simp] theorem certReads_append (a b : List MainEvent) :
    certReads (a ++ b) = certReads a ++ certReads b := by
  induction a with
  | nil => rfl
  | cons e a ih => cases e <;> simp [certReads, ih]

@[simp] theorem writtenFiles_append (a b : List MainEvent) :
    writtenFiles (a ++ b) = writtenFiles a ++ writtenFiles b := by
  induction a with
  | nil => rfl
  | cons e a ih => cases e <;> simp [writtenFiles, ih]

theorem startRPCServer_certReads (fl : Flags) (w : World) (s : State)
    (h : s.globals.TLSEnabled = false) :
    certReads (startRPCServer fl w s).state.trace = certReads s.trace := by
  simp [startRPCServer, h, Step.state, State.emit, certReads]

theorem upnpSetup_frame (w : World) (port : Int) (s : State) :
    (upnpSetup w port s).1.globals.TLSEnabled = s.globals.TLSEnabled ∧
    (upnpSetup w port s).1.ParanoidDir = s.ParanoidDir ∧
    certReads (upnpSetup w port s).1.trace = certReads s.trace ∧
    writtenFiles (upnpSetup w port s).1.trace = writtenFiles s.trace := by
  unfold upnpSetup
  cases w.upnpDiscoverDevices with
  | some e => simp [State.emit, certReads, writtenFiles]
  | none =>
    cases w.upnpAddPortMapping port with
    | error e => simp [State.emit, certReads, writtenFiles]
    | ok p => simp [State.emit, certReads, writtenFiles]

theorem joinNetwork_certReads (fl : Flags) (w : World) (args : List String) (port : Int)
    (s : State) (h : s.globals.TLSEnabled = false) :
    certReads (joinNetwork fl w args port s).state.trace = certReads s.trace := by
  unfold joinNetwork
  cases w.upnpGetIP 1 with
  | error e => simp [Step.state, State.emit, certReads]
  | ok server =>
    simp only []
    split
    · simp [Step.state, State.emit, certReads]
    · split
      · simp [Step.state, State.emit, certReads]
      · rw [startRPCServer_certReads _ _ _ (by simpa [State.emit] using h)]
        simp [State.emit, certReads]

theorem networkSetup_certReads (fl : Flags) (w : World) (args : List String)
    (s : State) (h : s.globals.TLSEnabled = false) :
    certReads (networkSetup fl w args s).state.trace = certReads s.trace := by
  unfold networkSetup
  split
  · cases w.upnpGetIP 0 with
    | error e => simp [Step.state, State.emit, certReads]
    | ok ip =>
      simp only []
      cases w.netListen (ip ++ ":0") with
      | error e => simp [Step.state, State.emit, certReads]
      | ok addr =>
        simp only []
        split
        · simp [Step.state, State.emit, certReads]
        · rw [joinNetwork_certReads, (upnpSetup_frame _ _ _).2.2.1]
          · simp [State.emit, certReads]
          · rw [(upnpSetup_frame _ _ _).1]
            simpa [State.emit] using h
  · rfl

@[simp] theorem networkEvents_append (a b : List MainEvent) :
    networkEvents (a ++ b) = networkEvents a ++ networkEvents b := by
  simp [networkEvents]

theorem createPid_certReads (w : World) (name : String) (s : State) :
    certReads (createPid w name s).state.trace = certReads s.trace := by
  unfold createPid
  simp only []
  split <;> simp [Step.state, State.emit, certReads]

theorem runDaemon_certReads (fl : Flags) (args : List String) (s : State) :
    certReads (runDaemon fl args s).state.trace = certReads s.trace := by
  simp [runDaemon, Step.state, State.emit, certReads]

theorem andThen_certReads (x : Step) (f : State → Step)
    (hf : ∀ s, certReads (f s).state.trace = certReads s.trace) :
    certReads (x.andThen f).state.trace = certReads x.state.trace := by
  cases x with
  | next s => simpa [Step.andThen, Step.state] using hf s
  | stop s o => rfl

theorem securitySetup_not_both (fl : Flags) (w : World) (s : State)
    (h : ¬ (fl.certFile ≠ "" ∧ fl.keyFile ≠ "")) :
    securitySetup fl w s =
      Step.next { s with globals :=
        { s.globals with TLSSkipVerify := fl.skipVerify, TLSEnabled := false } } := by
  unfold securitySetup
  rw [if_neg h]

theorem securitySetup_TLSEnabled (fl : Flags) (w : World) (s : State) :
    (securitySetup fl w s).state.globals.TLSEnabled = true ↔
      (fl.certFile ≠ "" ∧ fl.keyFile ≠ "") := by
  by_cases h : fl.certFile ≠ "" ∧ fl.keyFile ≠ ""
  · unfold securitySetup
    rw [if_pos h]
    refine ⟨fun _ => h, fun _ => ?_⟩
    cases fl.skipVerify with
    | true => simp [Step.state]
    | false =>
      cases w.getCommonNameFromCert fl.certFile <;> simp [Step.state, State.emit]
  · rw [securitySetup_not_both fl w s h]
    simp only [Step.state, h, iff_false]
    simp

theorem discoveryPortCheck_state (fl : Flags) (args : List String) (s : State) :
    (discoveryPortCheck fl args s).state = s := by
  unfold discoveryPortCheck
  split
  · split <;> rfl
  · rfl

theorem main_certReads_not_both (fl : Flags) (w : World) (args : List String) (s : State)
    (h : ¬ (fl.certFile ≠ "" ∧ fl.keyFile ≠ "")) :
    certReads (main fl w args s).state.trace = certReads s.trace := by
  unfold main
  rw [andThen_certReads _ _ (runDaemon_certReads fl args),
    andThen_certReads _ _ (createPid_certReads w "pfsd")]
  unfold mainToPortCheck
  split
  · simp [Step.andThen, Step.state, State.emit, certReads]
  · simp only [setupLoggers, Step.andThen, securitySetup_not_both fl w _ h]
    have hst := discoveryPortCheck_state fl args
      { globals := { s.globals with TLSSkipVerify := fl.skipVerify, TLSEnabled := false },
        ParanoidDir := s.ParanoidDir,
        trace := s.trace ++
          [MainEvent.newLogger "main" (pathJoin [flagArg args 0, "meta", "logs"]),
           MainEvent.newLogger "dnetclient" (pathJoin [flagArg args 0, "meta", "logs"]),
           MainEvent.newLogger "pnetclient" (pathJoin [flagArg args 0, "meta", "logs"]),
           MainEvent.newLogger "pnetserver" (pathJoin [flagArg args 0, "meta", "logs"]),
           MainEvent.newLogger "upnp" (pathJoin [flagArg args 0, "meta", "logs"])] }
    revert hst
    cases discoveryPortCheck fl args _ with
    | next s2 =>
      intro hst
      simp only [Step.state] at hst
      subst hst
      simp only []
      rw [networkSetup_certReads _ _ _ _ rfl]
      simp [certReads]
    | stop s2 o =>
      intro hst
      simp only [Step.state] at hst
      subst hst
      simp [Step.state, certReads]

theorem securitySetup_fails (fl : Flags) (w : World) (s : State) (h : commonNameFails fl w) :
    securitySetup fl w s =
      Step.stop
        { s with
          globals := { s.globals with TLSSkipVerify := fl.skipVerify, TLSEnabled := true },
          trace := s.trace ++ [MainEvent.readCommonName fl.certFile] }
        (Outcome.fatal FatalSite.commonName) := by
  obtain ⟨hc, hk, hs, e, he⟩ := h
  unfold securitySetup
  rw [if_pos ⟨hc, hk⟩]
  simp [hs, he, State.emit]

theorem securitySetup_passes (fl : Flags) (w : World) (s : State) (h : ¬ commonNameFails fl w) :
    (securitySetup fl w s).outcome? = none := by
  unfold securitySetup
  by_cases hb : fl.certFile ≠ "" ∧ fl.keyFile ≠ ""
  · rw [if_pos hb]
    cases hs : fl.skipVerify with
    | true => simp [Step.outcome?]
    | false =>
      cases he : w.getCommonNameFromCert fl.certFile with
      | error e => exact absurd ⟨hb.1, hb.2, hs, e, he⟩ h
      | ok cn => simp [Step.outcome?]
  · rw [if_neg hb]
    rfl

theorem securitySetup_networkEvents (fl : Flags) (w : World) (s : State) :
    networkEvents (securitySetup fl w s).state.trace = networkEvents s.trace := by
  unfold securitySetup
  simp only []
  split
  · cases fl.skipVerify with
    | true => simp [Step.state]
    | false =>
      cases w.getCommonNameFromCert fl.certFile <;>
        simp [Step.state, State.emit, networkEvents, MainEvent.isNetwork]
  · rfl

theorem setupLoggers_eq (args : List String) (s : State) :
    setupLoggers args s = Step.next (afterLoggers args s) := rfl

theorem afterLoggers_networkEvents (args : List String) (s : State) :
    networkEvents (afterLoggers args s).trace = networkEvents s.trace := by
  simp [afterLoggers, setupLoggers, Step.state, networkEvents, MainEvent.isNetwork]

/-- No network event happens up to and including the discovery-port check. -/
theorem mainToPortCheck_networkEvents (fl : Flags) (w : World) (args : List String)
    (s : State) :
    networkEvents (mainToPortCheck fl w args s).state.trace = networkEvents s.trace := by
  unfold mainToPortCheck
  split
  · simp [Step.state, State.emit, networkEvents, MainEvent.isNetwork]
  · have h2 := afterLoggers_networkEvents args s
    rw [setupLoggers_eq]
    simp only [Step.andThen]
    have h3 := securitySetup_networkEvents fl w (afterLoggers args s)
    cases hsec : securitySetup fl w (afterLoggers args s) with
    | next s2 =>
      rw [hsec] at h3
      simp only [Step.state] at h3
      simp only []
      rw [discoveryPortCheck_state, h3, h2]
    | stop s2 o =>
      rw [hsec] at h3
      simp only [Step.state] at h3 ⊢
      rw [h3, h2]

theorem discoveryPortCheck_accepts (fl : Flags) (args : List String) (s : State)
    (h : isPortNumber (flagArg args 3)) :
    discoveryPortCheck fl args s = Step.next s := by
  unfold discoveryPortCheck
  rw [(discoveryPortRejected_eq_false_iff _).mpr h]
  simp

theorem discoveryPortCheck_rejects (fl : Flags) (args : List String) (s : State)
    (hnet : fl.noNetwork = false) (h : ¬ isPortNumber (flagArg args 3)) :
    discoveryPortCheck fl args s = Step.stop s (Outcome.fatal FatalSite.discoveryPort) := by
  have hr : discoveryPortRejected (flagArg args 3) = true := by
    cases hr : discoveryPortRejected (flagArg args 3) with
    | true => rfl
    | false => exact absurd ((discoveryPortRejected_eq_false_iff _).mp hr) h
  unfold discoveryPortCheck
  simp [hnet, hr]

theorem startRPCServer_outcome (fl : Flags) (w : World) (s : State) :
    (startRPCServer fl w s).outcome? = none ∨
      (startRPCServer fl w s).outcome? = some (Outcome.fatal FatalSite.tlsCredentials) := by
  unfold startRPCServer
  split
  · simp only []
    split <;> simp [Step.outcome?]
  · simp [Step.outcome?]

theorem joinNetwork_outcome (fl : Flags) (w : World) (args : List String) (port : Int)
    (s : State) (site : FatalSite)
    (hsite : site = FatalSite.commonName ∨ site = FatalSite.discoveryPort) :
    (joinNetwork fl w args port s).outcome? ≠ some (Outcome.fatal site) := by
  unfold joinNetwork
  simp only []
  rcases hsite with rfl | rfl <;>
  · split
    · simp [Step.outcome?]
    · split
      · simp [Step.outcome?]
      · split
        · simp [Step.outcome?]
        · rcases startRPCServer_outcome fl w _ with h | h <;> rw [h] <;> simp

theorem networkSetup_outcome (fl : Flags) (w : World) (args : List String) (s : State)
    (site : FatalSite) (hsite : site = FatalSite.commonName ∨ site = FatalSite.discoveryPort) :
    (networkSetup fl w args s).outcome? ≠ some (Outcome.fatal site) := by
  unfold networkSetup
  split
  · simp only []
    split
    · rcases hsite with rfl | rfl <;> simp [Step.outcome?]
    · split
      · rcases hsite with rfl | rfl <;> simp [Step.outcome?]
      · split
        · rcases hsite with rfl | rfl <;> simp [Step.outcome?]
        · exact joinNetwork_outcome _ _ _ _ _ _ hsite
  · simp [Step.outcome?]

theorem createPid_outcome (w : World) (name : String) (s : State) (site : FatalSite)
    (hsite : site = FatalSite.commonName ∨ site = FatalSite.discoveryPort) :
    (createPid w name s).outcome? ≠ some (Outcome.fatal site) := by
  unfold createPid
  simp only []
  rcases hsite with rfl | rfl <;> split <;> simp [Step.outcome?]

/-- The stages after the discovery-port check never end the process at the
common-name extraction or at that check. -/
theorem main_outcome_early (fl : Flags) (w : World) (args : List String) (s : State)
    (site : FatalSite) (hsite : site = FatalSite.commonName ∨ site = FatalSite.discoveryPort) :
    (main fl w args s).outcome? = some (Outcome.fatal site) ↔
      (mainToPortCheck fl w args s).outcome? = some (Outcome.fatal site) := by
  unfold main
  cases h1 : mainToPortCheck fl w args s with
  | stop s1 o => simp [Step.andThen, Step.outcome?]
  | next s1 =>
    simp only [Step.andThen, Step.outcome?]
    have hn := networkSetup_outcome fl w args s1 site hsite
    cases h2 : networkSetup fl w args s1 with
    | stop s2 o =>
      rw [h2] at hn
      simp only [Step.outcome?] at hn ⊢
      simpa using hn
    | next s2 =>
      simp only []
      have hp := createPid_outcome w "pfsd" s2 site hsite
      cases h3 : createPid w "pfsd" s2 with
      | stop s3 o =>
        rw [h3] at hp
        simp only [Step.outcome?] at hp ⊢
        simpa using hp
      | next s3 => simp [runDaemon, Step.outcome?]

/-! ## The path of the PID file -/

theorem securitySetup_frame (fl : Flags) (w : World) (s : State) :
    (securitySetup fl w s).state.ParanoidDir = s.ParanoidDir ∧
      writtenFiles (securitySetup fl w s).state.trace = writtenFiles s.trace := by
  unfold securitySetup
  simp only []
  split
  · cases fl.skipVerify with
    | true => simp [Step.state]
    | false =>
      cases w.getCommonNameFromCert fl.certFile <;>
        simp [Step.state, State.emit, writtenFiles]
  · exact ⟨rfl, rfl⟩

theorem afterLoggers_frame (args : List String) (s : State) :
    (afterLoggers args s).ParanoidDir = s.ParanoidDir ∧
      writtenFiles (afterLoggers args s).trace = writtenFiles s.trace := by
  simp [afterLoggers, setupLoggers, Step.state, writtenFiles]

theorem mainToPortCheck_frame (fl : Flags) (w : World) (args : List String) (s : State) :
    (mainToPortCheck fl w args s).state.ParanoidDir = s.ParanoidDir ∧
      writtenFiles (mainToPortCheck fl w args s).state.trace = writtenFiles s.trace ∧
      (mainToPortCheck fl w args s).outcome? ≠ some Outcome.running := by
  unfold mainToPortCheck
  split
  · simp [Step.state, State.emit, writtenFiles, Step.outcome?]
  · rw [setupLoggers_eq]
    simp only [Step.andThen]
    obtain ⟨h1, h2⟩ := afterLoggers_frame args s
    obtain ⟨h3, h4⟩ := securitySetup_frame fl w (afterLoggers args s)
    have hs := securitySetup_fails fl w (afterLoggers args s)
    have hp := securitySetup_passes fl w (afterLoggers args s)
    cases hsec : securitySetup fl w (afterLoggers args s) with
    | next s2 =>
      rw [hsec] at h3 h4
      simp only [Step.state] at h3 h4
      simp only []
      rw [discoveryPortCheck_state]
      refine ⟨by rw [h3, h1], by rw [h4, h2], ?_⟩
      unfold discoveryPortCheck
      split
      · split <;> simp [Step.outcome?]
      · simp [Step.outcome?]
    | stop s2 o =>
      rw [hsec] at h3 h4
      simp only [Step.state] at h3 h4 ⊢
      refine ⟨by rw [h3, h1], by rw [h4, h2], ?_⟩
      by_cases hf : commonNameFails fl w
      · rw [hs hf] at hsec
        injection hsec with _ ho
        rw [← ho]
        simp [Step.outcome?]
      · have := hp hf
        rw [hsec] at this
        simp [Step.outcome?] at this

theorem startRPCServer_frame (fl : Flags) (w : World) (s : State) :
    (startRPCServer fl w s).state.ParanoidDir = s.ParanoidDir ∧
      writtenFiles (startRPCServer fl w s).state.trace = writtenFiles s.trace ∧
      (startRPCServer fl w s).outcome? ≠ some Outcome.running := by
  unfold startRPCServer
  split
  · simp only []
    split <;> simp [Step.state, State.emit, writtenFiles, Step.outcome?]
  · simp [Step.state, State.emit, writtenFiles, Step.outcome?]

theorem joinNetwork_frame (fl : Flags) (w : World) (args : List String) (port : Int)
    (s : State) :
    (joinNetwork fl w args port s).state.ParanoidDir = s.ParanoidDir ∧
      writtenFiles (joinNetwork fl w args port s).state.trace = writtenFiles s.trace ∧
      (joinNetwork fl w args port s).outcome? ≠ some Outcome.running := by
  unfold joinNetwork
  simp only []
  split
  · simp [Step.state, State.emit, writtenFiles, Step.outcome?]
  · split
    · simp [Step.state, State.emit, writtenFiles, Step.outcome?]
    · split
      · simp [Step.state, State.emit, writtenFiles, Step.outcome?]
      · refine ⟨(startRPCServer_frame fl w _).1.trans rfl,
          (startRPCServer_frame fl w _).2.1.trans ?_, (startRPCServer_frame fl w _).2.2⟩
        simp [State.emit, writtenFiles]

theorem networkSetup_frame (fl : Flags) (w : World) (args : List String) (s : State)
    (hnet : fl.noNetwork = false) :
    (networkSetup fl w args s).state.ParanoidDir = flagArg args 0 ∧
      writtenFiles (networkSetup fl w args s).state.trace = writtenFiles s.trace ∧
      (networkSetup fl w args s).outcome? ≠ some Outcome.running := by
  unfold networkSetup
  simp only [hnet, Bool.false_eq_true, not_false_eq_true, if_true]
  cases w.upnpGetIP 0 with
  | error e => simp [Step.state, State.emit, writtenFiles, Step.outcome?]
  | ok ip =>
    simp only []
    cases w.netListen (ip ++ ":0") with
    | error e => simp [Step.state, State.emit, writtenFiles, Step.outcome?]
    | ok addr =>
      simp only []
      split
      · simp [Step.state, State.emit, writtenFiles, Step.outcome?]
      · refine ⟨?_, ?_, (joinNetwork_frame fl w args _ _).2.2⟩
        · exact (joinNetwork_frame fl w args _ _).1.trans
            ((upnpSetup_frame w _ _).2.1.trans rfl)
        · refine (joinNetwork_frame fl w args _ _).2.1.trans
            ((upnpSetup_frame w _ _).2.2.2.trans ?_)
          simp [State.emit, writtenFiles]

theorem createPid_cases (w : World) (name : String) (s : State) :
    createPid w name s =
        Step.stop (s.emit (MainEvent.writeFile (pathJoin [s.ParanoidDir, "meta", name ++ ".pid"])
          (itoa w.getpid))) (Outcome.fatal FatalSite.pidFile) ∨
      createPid w name s =
        Step.next (s.emit (MainEvent.writeFile (pathJoin [s.ParanoidDir, "meta", name ++ ".pid"])
          (itoa w.getpid))) := by
  unfold createPid
  simp only []
  split
  · exact Or.inl rfl
  · exact Or.inr rfl

theorem networkSetup_off (fl : Flags) (w : World) (args : List String) (s : State)
    (hnet : fl.noNetwork = true) : networkSetup fl w args s = Step.next s := by
  simp [networkSetup, hnet]

/-- Where the PID file is written by every startup that gets to run: under
the first positional argument when networking is enabled, under the initial
value of `pnetserver.ParanoidDir` with `--no_networking`. -/
theorem pid_file_path_of_running (fl : Flags) (w : World) (args : List String) (s : State)
    (h : (main fl w args s).outcome? = some Outcome.running) :
    writtenFiles (main fl w args s).state.trace = writtenFiles s.trace ++
      [pathJoin [if fl.noNetwork then s.ParanoidDir else flagArg args 0, "meta", "pfsd.pid"]] := by
  unfold main at h ⊢
  obtain ⟨a1, a2, a3⟩ := mainToPortCheck_frame fl w args s
  cases h1 : mainToPortCheck fl w args s with
  | stop s1 o =>
    rw [h1] at h a3
    simp only [Step.andThen, Step.outcome?] at h a3
    exact absurd h a3
  | next s1 =>
    rw [h1] at h a1 a2
    simp only [Step.andThen, Step.state] at h a1 a2 ⊢
    have key : (networkSetup fl w args s1).state.ParanoidDir =
          (if fl.noNetwork then s.ParanoidDir else flagArg args 0) ∧
        writtenFiles (networkSetup fl w args s1).state.trace = writtenFiles s.trace ∧
        (networkSetup fl w args s1).outcome? ≠ some Outcome.running := by
      cases hnet : fl.noNetwork with
      | true =>
        rw [networkSetup_off fl w args s1 hnet]
        simp [Step.state, Step.outcome?, a1, a2]
      | false =>
        obtain ⟨n1, n2, n3⟩ := networkSetup_frame fl w args s1 hnet
        exact ⟨by simpa using n1, by rw [n2, a2], n3⟩
    obtain ⟨k1, k2, k3⟩ := key
    cases h2 : networkSetup fl w args s1 with
    | stop s2 o =>
      rw [h2] at h k3
      simp only [Step.andThen, Step.outcome?] at h k3
      exact absurd h k3
    | next s2 =>
      rw [h2] at h k1 k2
      simp only [Step.andThen, Step.state] at h k1 k2 ⊢
      rcases createPid_cases w "pfsd" s2 with hc | hc
      · rw [hc] at h
        simp [Step.andThen, Step.outcome?] at h
      · rw [hc]
        have e : "pfsd" ++ ".pid" = "pfsd.pid" := by decide
        simp [Step.andThen, runDaemon, State.emit, writtenFiles, k1, k2, e]

/-! ## Claims on the broadcast (`pnetclient/creat.go`) -/

/-- C1, as stated, fails: with two peers of which the first cannot be
dialled, `creat` dials the first peer only and the process exits with
status 1 (`log.Fatalln`); the second peer gets no dial and no remote call,
so there is not one attempt per peer. -/
theorem creat_dial_failure_stops_broadcast :
    creat (fun _ => ⟨false, true⟩) [demoPeerA, demoPeerB] "f" "0644" =
        { events := [NetEvent.dial "10.0.0.1:4000" false], ending := Ending.exited 1 } ∧
      (dialTargets (creat (fun _ => ⟨false, true⟩) [demoPeerA, demoPeerB] "f" "0644").events).length
        ≠ [demoPeerA, demoPeerB].length := by
  decide

/-- C1, amended: errors of the remote `Creat` call never stop the broadcast,
a dial failure does. If the first `k` peers can be dialled and peer `k`
(when there is one) cannot, then whatever the remote calls return, `creat`
dials exactly the peers `0..k` in order, each once, makes the remote call at
exactly the peers `0..k-1`, and returns normally exactly when `k` is the
number of peers, that is when no dial failed. -/
theorem creat_attempts_until_dial_failure (outcome : Nat → PeerOutcome) (ips : List Node)
    (filename permissions : String) (k : Nat) (hk : k ≤ ips.length)
    (hok : ∀ j, j < k → (outcome j).dialOk = true)
    (hfail : k < ips.length → (outcome k).dialOk = false) :
    dialTargets (creat outcome ips filename permissions).events =
        (ips.take (k + 1)).map Node.target ∧
      creatTargets (creat outcome ips filename permissions).events =
        (ips.take k).map Node.target ∧
      ((creat outcome ips filename permissions).ending = Ending.returned ↔ k = ips.length) := by
  unfold creat
  exact creatFrom_attempts outcome filename permissions ips 0 k hk
    (fun j hj => by simpa using hok j hj) (fun h => by simpa using hfail h)

/-- Witness of C1, amended: three peers, the remote call of the first
returns an error, the third cannot be dialled. -/
theorem creat_attempts_until_dial_failure_witness :
    dialTargets (creat demoOutcomes [demoPeerA, demoPeerB, demoPeerC] "f" "0644").events =
        ([demoPeerA, demoPeerB, demoPeerC].take (2 + 1)).map Node.target ∧
      creatTargets (creat demoOutcomes [demoPeerA, demoPeerB, demoPeerC] "f" "0644").events =
        ([demoPeerA, demoPeerB, demoPeerC].take 2).map Node.target ∧
      ((creat demoOutcomes [demoPeerA, demoPeerB, demoPeerC] "f" "0644").ending =
          Ending.returned ↔ 2 = [demoPeerA, demoPeerB, demoPeerC].length) :=
  creat_attempts_until_dial_failure demoOutcomes [demoPeerA, demoPeerB, demoPeerC] "f" "0644" 2
    (by decide)
    (fun j hj => by
      have : j = 0 ∨ j = 1 := by omega
      rcases this with rfl | rfl <;> rfl)
    (fun _ => rfl)

/-- C2: for every file name and permissions string, `creat` on an empty peer
list returns normally and performs no network event at all. -/
theorem creat_empty_peer_list (outcome : Nat → PeerOutcome) (filename permissions : String) :
    creat outcome [] filename permissions = { events := [], ending := Ending.returned } := by
  rfl

/-- C10, as stated, fails: the permissions string `4294967296x` is not a
decimal numeral, yet it is sent as `2^32 - 1` and not as `0`, because
`ParseUint` reports the overflow at the tenth digit before it reaches `x`. -/
theorem permissionsInt_overflow_before_bad_byte :
    isDecimalNumeral "4294967296x" = false ∧
      permissionsInt "4294967296x" = 2 ^ 32 - 1 ∧
      sendCreateMessage ⟨true, true⟩ demoPeerA "f" "4294967296x" =
        { events := [NetEvent.dial "10.0.0.1:4000" true,
                     NetEvent.creatCall "10.0.0.1:4000" ⟨"f", 4294967295⟩ true,
                     NetEvent.connClose "10.0.0.1:4000"],
          ending := Ending.returned } := by
  decide

/-- C10, amended: when the dial succeeds `sendCreateMessage` always makes
the remote call, with the file name unchanged and the permissions read in
base 10 from the left: `2^32 - 1` when the leading decimal digits already
have a value of `2^32` or more (whatever follows them), otherwise `0` when
the string is empty or holds a byte that is no decimal digit, otherwise the
value of the numeral (so `0644` is sent as 644). -/
theorem sendCreateMessage_request (creatOk : Bool) (ipAddress : Node)
    (filename permissions : String) :
    sendCreateMessage ⟨true, creatOk⟩ ipAddress filename permissions =
        { events := [NetEvent.dial ipAddress.target true,
                     NetEvent.creatCall ipAddress.target
                       ⟨filename, permissionsInt permissions⟩ creatOk,
                     NetEvent.connClose ipAddress.target],
          ending := Ending.returned } ∧
      permissionsInt permissions =
        (if 2 ^ 32 ≤ decValue (digitPrefix permissions.data) then 2 ^ 32 - 1
         else if permissions.data = [] ∨ digitPrefix permissions.data ≠ permissions.data then 0
         else decValue permissions.data) ∧
      permissionsInt "0644" = 644 := by
  refine ⟨rfl, ?_, by decide⟩
  obtain ⟨l⟩ := permissions
  unfold permissionsInt
  rw [parseUint_spec l 32 (by norm_num)]
  have h32 : (2 : Nat) ^ 32 = 4294967296 := by norm_num
  simp only [h32]
  by_cases h1 : l = []
  · simp [h1, digitPrefix, decValue, decValueFrom]
  · simp only [h1, if_false, false_or]
    by_cases h2 : 4294967296 ≤ decValue (digitPrefix l)
    · rw [if_pos (by omega), if_pos h2]
      norm_num
    · rw [if_neg (by omega), if_neg h2]
      by_cases h3 : digitPrefix l ≠ l
      · rw [if_pos h3, if_pos h3]
        rfl
      · rw [if_neg h3, if_neg h3]
        have h4 : digitPrefix l = l := by simpa using h3
        rw [h4] at h2
        simp only []
        omega

/-! ## Claims on the receivers (`pnetserver`) -/

theorem contains_append_left (a b sub : String) (h : Contains a sub) : Contains (a ++ b) sub := by
  unfold Contains at *
  rw [String.data_append]
  exact List.IsInfix.trans h (List.infix_append' [] a.data b.data)

theorem contains_append_right (a b sub : String) (h : Contains b sub) : Contains (a ++ b) sub := by
  unfold Contains at *
  rw [String.data_append]
  exact List.IsInfix.trans h (List.IsSuffix.isInfix (List.suffix_append a.data b.data))

theorem contains_self (a : String) : Contains a a := List.infix_refl _

/-- The execution-level error of the command decides the reply of `Mkdir`:
a non-nil `err` always gives an error of class `codes.Internal`. -/
theorem Mkdir_execution_error_internal
    (runCommand : List String → Int × String × Option GoError)
    (convertCodeToError : Int → String → Option RpcError) (dir : String) (req : MkdirRequest)
    (e : GoError)
    (h : (runCommand ["mkdir", dir, req.directory, sprintNat req.mode]).2.2 = some e) :
    ∃ desc, (Mkdir runCommand convertCodeToError dir req).err =
      some { code := GrpcCode.Internal, desc := desc } := by
  unfold Mkdir
  simp only [h]
  exact ⟨_, rfl⟩

/-- C3: for every request and every `(code, err)` the symlink command
returns, `Symlink` returns a nil error exactly when the code is
`returncodes.OK`, a non-nil error for every other code, and in both cases
the (non-nil) empty message as response. -/
theorem Symlink_error_iff_code_not_ok (returncodesOK : Int)
    (SymlinkCommand : String → String → String → Bool → Int × Option GoError)
    (ParanoidDir : String) (req : LinkRequest) :
    ((Symlink returncodesOK SymlinkCommand ParanoidDir req).err = none ↔
        (SymlinkCommand ParanoidDir req.OldPath req.NewPath false).1 = returncodesOK) ∧
      (Symlink returncodesOK SymlinkCommand ParanoidDir req).response = some {} := by
  unfold Symlink
  by_cases h : (SymlinkCommand ParanoidDir req.OldPath req.NewPath false).1 = returncodesOK
  · simp [h]
  · simp [h, grpcErrorf]

/-- C4 fails on `Symlink`: when the symlink command returns the code
`returncodes.OK` together with a non-nil error `e`, the receiver replies
with the empty message and a nil error, a success reply. (`Mkdir` tests
`err` first and replies with an internal error.) -/
theorem Symlink_drops_execution_error (returncodesOK : Int) (e : GoError)
    (ParanoidDir : String) (req : LinkRequest) :
    Symlink returncodesOK (fun _ _ _ _ => (returncodesOK, some e)) ParanoidDir req =
      { response := some {}, err := none } := by
  simp [Symlink]

/-- C5, as stated, fails: for the code 7 and the error text `boom` the
message of the error `Symlink` returns is
`could not link file a.txt to b.txt: boom`, which does not contain the raw
result code. -/
theorem Symlink_message_lacks_code :
    (Symlink 0 (fun _ _ _ _ => (7, some ⟨"*errors.errorString", "boom"⟩)) "/pfs"
        ⟨"a.txt", "b.txt"⟩).err =
      some { code := GrpcCode.Internal, desc := "could not link file a.txt to b.txt: boom" } ∧
    itoa 7 = "7" ∧
    ¬ Contains "could not link file a.txt to b.txt: boom" (itoa 7) := by
  decide

/-- C5, amended: for every request and every result code other than
`returncodes.OK`, the error `Symlink` returns is of class `codes.Internal`
whichever code it was, and its message is
`could not link file <OldPath> to <NewPath>: <err>`: it contains the words
`link file`, both paths and the text of the error value the command
returned (`<nil>` when that is nil), not the result code. -/
theorem Symlink_error_message (returncodesOK : Int)
    (SymlinkCommand : String → String → String → Bool → Int × Option GoError)
    (ParanoidDir : String) (req : LinkRequest)
    (h : (SymlinkCommand ParanoidDir req.OldPath req.NewPath false).1 ≠ returncodesOK) :
    ∃ e, (Symlink returncodesOK SymlinkCommand ParanoidDir req).err = some e ∧
      e.code = GrpcCode.Internal ∧
      e.desc = "could not link file " ++ req.OldPath ++ " to " ++ req.NewPath ++ ": " ++
        fmtErrV (SymlinkCommand ParanoidDir req.OldPath req.NewPath false).2 ∧
      Contains e.desc "link file" ∧ Contains e.desc req.OldPath ∧
      Contains e.desc req.NewPath ∧
      Contains e.desc (fmtErrV (SymlinkCommand ParanoidDir req.OldPath req.NewPath false).2) := by
  refine ⟨_, by simp [Symlink, h, grpcErrorf]; rfl, rfl, rfl, ?_, ?_, ?_, ?_⟩
  · iterate 5 apply contains_append_left
    decide
  · iterate 4 apply contains_append_left
    exact contains_append_right _ _ _ (contains_self _)
  · apply contains_append_left
    apply contains_append_left
    exact contains_append_right _ _ _ (contains_self _)
  · exact contains_append_right _ _ _ (contains_self _)

/-- Witness of C5, amended: the code 7 with the error text `boom`. -/
theorem Symlink_error_message_witness :
    ∃ e, (Symlink 0 (fun _ _ _ _ => (7, some ⟨"*errors.errorString", "boom"⟩)) "/pfs"
        ⟨"a.txt", "b.txt"⟩).err = some e ∧
      e.code = GrpcCode.Internal ∧
      e.desc = "could not link file " ++ "a.txt" ++ " to " ++ "b.txt" ++ ": " ++
        fmtErrV (some ⟨"*errors.errorString", "boom"⟩) ∧
      Contains e.desc "link file" ∧ Contains e.desc "a.txt" ∧
      Contains e.desc "b.txt" ∧
      Contains e.desc (fmtErrV (some ⟨"*errors.errorString", "boom"⟩)) :=
  Symlink_error_message 0 (fun _ _ _ _ => (7, some ⟨"*errors.errorString", "boom"⟩)) "/pfs"
    ⟨"a.txt", "b.txt"⟩ (by decide)

/-! ## Claims on startup (`main.go`) -/

theorem securitySetup_skip (fl : Flags) (w : World) (s : State) (h : fl.skipVerify = true) :
    (securitySetup fl w s).outcome? = none ∧ (securitySetup fl w s).state.trace = s.trace ∧
      (securitySetup fl w s).state.globals.CommonName = s.globals.CommonName := by
  unfold securitySetup
  simp only [h]
  split <;> simp [Step.outcome?, Step.state]

theorem discoveryPortCheck_outcome_ne (fl : Flags) (args : List String) (s : State) :
    (discoveryPortCheck fl args s).outcome? ≠ some (Outcome.fatal FatalSite.commonName) := by
  unfold discoveryPortCheck
  split
  · split <;> simp [Step.outcome?]
  · simp [Step.outcome?]

theorem main_of_commonNameFails (fl : Flags) (w : World) (args : List String) (s : State)
    (h : commonNameFails fl w) (hargs : 4 ≤ args.length) :
    main fl w args s =
      Step.stop
        { globals := { (afterLoggers args s).globals with
            TLSSkipVerify := fl.skipVerify, TLSEnabled := true },
          ParanoidDir := (afterLoggers args s).ParanoidDir,
          trace := (afterLoggers args s).trace ++ [MainEvent.readCommonName fl.certFile] }
        (Outcome.fatal FatalSite.commonName) := by
  unfold main mainToPortCheck
  rw [if_neg (by omega), setupLoggers_eq]
  simp only [Step.andThen]
  rw [securitySetup_fails fl w _ h]

/-- C6: for every pair of `--cert` and `--key` values, after the security
set-up of `main` the variable `globals.TLSEnabled` is true if and only if
both values are non-empty; and unless both are non-empty the whole of
`main` reads the certificate neither for the common name nor for the TLS
credentials of the server. -/
theorem TLSEnabled_iff_cert_and_key (fl : Flags) (w : World) (args : List String)
    (s : State) :
    ((securitySetup fl w s).state.globals.TLSEnabled = true ↔
        (fl.certFile ≠ "" ∧ fl.keyFile ≠ "")) ∧
      ((fl.certFile ≠ "" ∧ fl.keyFile ≠ "") ∨
        (certReads (securitySetup fl w s).state.trace = certReads s.trace ∧
          certReads (main fl w args s).state.trace = certReads s.trace)) := by
  refine ⟨securitySetup_TLSEnabled fl w s, ?_⟩
  by_cases h : fl.certFile ≠ "" ∧ fl.keyFile ≠ ""
  · exact Or.inl h
  · refine Or.inr ⟨?_, main_certReads_not_both fl w args s h⟩
    rw [securitySetup_not_both fl w s h]
    rfl

/-- C7, as stated, fails: with networking enabled, four positional
arguments of which the fourth is `abc`, both `--cert` and `--key` given and
a certificate whose common name cannot be read, startup ends at the
common-name extraction of line 79 and not at the discovery-port check,
although `abc` is no port number. -/
theorem discoveryPort_check_not_reached :
    (⟨"cert.pem", "key.pem", false, false, false⟩ : Flags).noNetwork = false ∧
      4 ≤ ["/tmp/pfs", "/mnt/pfs", "discovery.example", "abc"].length ∧
      ¬ isPortNumber (flagArg ["/tmp/pfs", "/mnt/pfs", "discovery.example", "abc"] 3) ∧
      (main ⟨"cert.pem", "key.pem", false, false, false⟩ demoWorld
          ["/tmp/pfs", "/mnt/pfs", "discovery.example", "abc"] freshState).outcome? =
        some (Outcome.fatal FatalSite.commonName) ∧
      ¬ ((main ⟨"cert.pem", "key.pem", false, false, false⟩ demoWorld
          ["/tmp/pfs", "/mnt/pfs", "discovery.example", "abc"] freshState).outcome? =
            some (Outcome.fatal FatalSite.discoveryPort) ↔
          ¬ isPortNumber (flagArg ["/tmp/pfs", "/mnt/pfs", "discovery.example", "abc"] 3)) := by
  have hport : ¬ isPortNumber (flagArg ["/tmp/pfs", "/mnt/pfs", "discovery.example", "abc"] 3) := by
    rw [← discoveryPortRejected_eq_false_iff]
    decide
  have hout : (main ⟨"cert.pem", "key.pem", false, false, false⟩ demoWorld
      ["/tmp/pfs", "/mnt/pfs", "discovery.example", "abc"] freshState).outcome? =
        some (Outcome.fatal FatalSite.commonName) := by
    decide
  refine ⟨rfl, by decide, hport, hout, ?_⟩
  rw [hout]
  intro h
  exact absurd (h.mpr hport) (by decide)

/-- C7, amended: with networking enabled, at least four positional
arguments, and the security set-up not having ended startup (it does when
both `--cert` and `--key` are given, verification is not skipped and the
common name cannot be read), startup ends with the fatal log of the
discovery-port check if and only if the fourth argument does not parse as a
decimal integer `p` with `1 ≤ p ≤ 65535`; for every such `p` the check
passes, and in every case no network event (UPnP, listener, discovery, RPC
server) has happened up to and including the check. -/
theorem discoveryPort_check (fl : Flags) (w : World) (args : List String) (s : State)
    (hnet : fl.noNetwork = false) (hargs : 4 ≤ args.length)
    (hsec : ¬ commonNameFails fl w) :
    ((main fl w args s).outcome? = some (Outcome.fatal FatalSite.discoveryPort) ↔
        ¬ isPortNumber (flagArg args 3)) ∧
      (isPortNumber (flagArg args 3) → (mainToPortCheck fl w args s).outcome? = none) ∧
      networkEvents (mainToPortCheck fl w args s).state.trace = networkEvents s.trace := by
  have hpass := securitySetup_passes fl w (afterLoggers args s) hsec
  have hcheck : mainToPortCheck fl w args s =
      discoveryPortCheck fl args (securitySetup fl w (afterLoggers args s)).state := by
    unfold mainToPortCheck
    rw [if_neg (by omega), setupLoggers_eq]
    simp only [Step.andThen]
    cases hs : securitySetup fl w (afterLoggers args s) with
    | next s2 => rfl
    | stop s2 o => rw [hs] at hpass; simp [Step.outcome?] at hpass
  refine ⟨?_, ?_, mainToPortCheck_networkEvents fl w args s⟩
  · rw [main_outcome_early fl w args s _ (Or.inr rfl), hcheck]
    constructor
    · intro h hp
      rw [discoveryPortCheck_accepts fl args _ hp] at h
      simp [Step.outcome?] at h
    · intro hp
      rw [discoveryPortCheck_rejects fl args _ hnet hp]
      rfl
  · intro hp
    rw [hcheck, discoveryPortCheck_accepts fl args _ hp]
    rfl

/-- Witness of C7, amended: no TLS flags and the discovery port `8080`. -/
theorem discoveryPort_check_witness :
    ((main ⟨"", "", false, false, false⟩ demoWorld
          ["/tmp/pfs", "/mnt/pfs", "discovery.example", "8080"] freshState).outcome? =
        some (Outcome.fatal FatalSite.discoveryPort) ↔
        ¬ isPortNumber (flagArg ["/tmp/pfs", "/mnt/pfs", "discovery.example", "8080"] 3)) ∧
      (isPortNumber (flagArg ["/tmp/pfs", "/mnt/pfs", "discovery.example", "8080"] 3) →
        (mainToPortCheck ⟨"", "", false, false, false⟩ demoWorld
          ["/tmp/pfs", "/mnt/pfs", "discovery.example", "8080"] freshState).outcome? = none) ∧
      networkEvents (mainToPortCheck ⟨"", "", false, false, false⟩ demoWorld
          ["/tmp/pfs", "/mnt/pfs", "discovery.example", "8080"] freshState).state.trace =
        networkEvents freshState.trace :=
  discoveryPort_check ⟨"", "", false, false, false⟩ demoWorld
    ["/tmp/pfs", "/mnt/pfs", "discovery.example", "8080"] freshState rfl (by decide)
    (fun h => h.1 rfl)

/-- C8 fails with `--no_networking`: started as
`pfsd --no_networking /tmp/pfs /mnt/pfs discovery.example 8080`, startup
reaches the PID step without any network event, but `pnetserver.ParanoidDir`
was never assigned (line 95 is inside the networking block), so the PID file
is written at the relative path `meta/pfsd.pid` and not at
`/tmp/pfs/meta/pfsd.pid`. -/
theorem pid_file_path_without_networking :
    (main ⟨"", "", true, false, false⟩ demoWorld
        ["/tmp/pfs", "/mnt/pfs", "discovery.example", "8080"] freshState).outcome? =
      some Outcome.running ∧
    networkEvents (main ⟨"", "", true, false, false⟩ demoWorld
        ["/tmp/pfs", "/mnt/pfs", "discovery.example", "8080"] freshState).state.trace = [] ∧
    writtenFiles (main ⟨"", "", true, false, false⟩ demoWorld
        ["/tmp/pfs", "/mnt/pfs", "discovery.example", "8080"] freshState).state.trace =
      ["meta/pfsd.pid"] ∧
    pathJoin ["/tmp/pfs", "meta", "pfsd.pid"] = "/tmp/pfs/meta/pfsd.pid" ∧
    writtenFiles (main ⟨"", "", false, false, false⟩ demoWorld
        ["/tmp/pfs", "/mnt/pfs", "discovery.example", "8080"] freshState).state.trace =
      ["/tmp/pfs/meta/pfsd.pid"] := by
  decide

/-- C9: for every startup in which both `--cert` and `--key` are non-empty,
`--skip_verification` is not set and the common name cannot be read from
the certificate, `main` ends before any network event (UPnP, listener,
discovery, RPC server): with the fatal log of line 79 once the four
positional arguments are there (with the usage text and exit status 1
otherwise); with `--skip_verification` set the security set-up reads no
certificate, leaves the common name as it was and cannot end the process,
and `main` never ends at the common-name extraction. -/
theorem commonName_failure_is_fatal (fl : Flags) (w : World) (args : List String) (s : State) :
    (fl.certFile ≠ "" → fl.keyFile ≠ "" → fl.skipVerify = false →
        (∃ e, w.getCommonNameFromCert fl.certFile = Except.error e) →
        (main fl w args s).outcome? =
            some (if args.length < 4 then Outcome.usageExit
                  else Outcome.fatal FatalSite.commonName) ∧
          networkEvents (main fl w args s).state.trace = networkEvents s.trace) ∧
      (fl.skipVerify = true →
        (securitySetup fl w s).outcome? = none ∧
          (securitySetup fl w s).state.trace = s.trace ∧
          (securitySetup fl w s).state.globals.CommonName = s.globals.CommonName ∧
          (main fl w args s).outcome? ≠ some (Outcome.fatal FatalSite.commonName)) := by
  constructor
  · intro hc hk hs he
    have hfail : commonNameFails fl w := ⟨hc, hk, hs, he⟩
    by_cases hargs : args.length < 4
    · rw [if_pos hargs]
      unfold main mainToPortCheck
      rw [if_pos hargs]
      simp [Step.andThen, Step.outcome?, Step.state, State.emit, networkEvents,
        MainEvent.isNetwork]
    · rw [if_neg hargs, main_of_commonNameFails fl w args s hfail (by omega)]
      refine ⟨rfl, ?_⟩
      have := afterLoggers_networkEvents args s
      simp [Step.state, networkEvents, MainEvent.isNetwork] at this ⊢
      exact this
  · intro hs
    obtain ⟨h1, h2, h3⟩ := securitySetup_skip fl w s hs
    refine ⟨h1, h2, h3, ?_⟩
    rw [Ne, main_outcome_early fl w args s _ (Or.inl rfl)]
    unfold mainToPortCheck
    split
    · simp [Step.outcome?]
    · rw [setupLoggers_eq]
      simp only [Step.andThen]
      have hp := (securitySetup_skip fl w (afterLoggers args s) hs).1
      cases hsec : securitySetup fl w (afterLoggers args s) with
      | next s2 => exact discoveryPortCheck_outcome_ne fl args s2
      | stop s2 o => rw [hsec] at hp; simp [Step.outcome?] at hp

/-- Witness of C9: four arguments, both TLS files given, verification not
skipped, a certificate without readable common name. -/
theorem commonName_failure_is_fatal_witness :
    (main ⟨"cert.pem", "key.pem", false, false, false⟩ demoWorld
        ["/tmp/pfs", "/mnt/pfs", "discovery.example", "8080"] freshState).outcome? =
      some (if ["/tmp/pfs", "/mnt/pfs", "discovery.example", "8080"].length < 4
            then Outcome.usageExit else Outcome.fatal FatalSite.commonName) ∧
    networkEvents (main ⟨"cert.pem", "key.pem", false, false, false⟩ demoWorld
        ["/tmp/pfs", "/mnt/pfs", "discovery.example", "8080"] freshState).state.trace =
      networkEvents freshState.trace :=
  (commonName_failure_is_fatal ⟨"cert.pem", "key.pem", false, false, false⟩ demoWorld
    ["/tmp/pfs", "/mnt/pfs", "discovery.example", "8080"] freshState).1
    (by decide) (by decide) rfl ⟨_, rfl⟩

end Pfsd
